import Mathlib

/-!
Shallow embedding of the core of the yippieblox MCP server
(src/server/src/state.rs, bridge_http.rs, mcp_stdio.rs, types.rs).

Conventions of the embedding:
* `HashMap<String, V>` becomes an association list `List (String × V)`
  whose order stands for one fixed iteration-order snapshot of the map;
  key uniqueness (a HashMap guarantee) appears as a `Nodup` hypothesis
  where a proof needs it.
* `VecDeque` becomes `List` (front = head).
* `u64` becomes `Nat` reduced modulo `2 ^ 64` where the source increments.
* `chrono` timestamps become `Int` (seconds); the `f64` log timestamp is
  kept as an `Int` millisecond count since no claim inspects it.
* `tokio::sync::oneshot`: the pending map stores the sender; the slot
  records whether the receiver is still alive.  Dropping the receiver
  (what happens when the 30 s timeout branch returns) flips that flag and
  leaves the map entry in place, exactly as in the source.
* `tokio::sync::Notify::notify_one` is instrumented as a signal counter.
* `serde_json::Value` becomes the inductive `Json` below; the pretty
  printer is abstracted by a plain renderer (no claim inspects the
  rendered text).
-/

/-- Model of `serde_json::Value`.  Numbers are kept as `Int`: no routing,
queueing or logging code of the server does arithmetic on JSON numbers. -/
inductive Json where
  | null : Json
  | bool (b : Bool) : Json
  | num (n : Int) : Json
  | str (s : String) : Json
  | arr (elems : List Json) : Json
  | obj (fields : List (String × Json)) : Json

/-- `Value::get(key)` on an object (first binding wins, as in a map). -/
def Json.get (j : Json) (key : String) : Option Json :=
  match j with
  | .obj fields => (fields.find? (fun kv => kv.1 == key)).map (fun kv => kv.2)
  | _ => none

/-- `Value::as_str`. -/
def Json.as_str (j : Json) : Option String :=
  match j with
  | .str s => some s
  | _ => none

/-- `Value::as_bool`. -/
def Json.as_bool (j : Json) : Option Bool :=
  match j with
  | .bool b => some b
  | _ => none

/-- Compact JSON renderer, standing in for `serde_json::to_string_pretty`
(whitespace and string escaping are abstracted; no claim reads the
rendered text back). -/
def Json.render : Json → String
  | .null => "null"
  | .bool true => "true"
  | .bool false => "false"
  | .num n => toString n
  | .str s => "\"" ++ s ++ "\""
  | .arr elems =>
      "[" ++ String.intercalate "," (elems.attach.map (fun e => Json.render e.1)) ++ "]"
  | .obj fields =>
      "\x7b" ++
        String.intercalate ","
          (fields.attach.map (fun kv => "\"" ++ kv.1.1 ++ "\":" ++ Json.render kv.1.2)) ++
        "\x7d"
decreasing_by
  · have h := List.sizeOf_lt_of_mem e.2
    simp only [Json.arr.sizeOf_spec]
    omega
  · have h1 := List.sizeOf_lt_of_mem kv.2
    have h2 : sizeOf kv.1.2 < sizeOf kv.1 := by
      cases h : kv.1
      simp
    simp only [Json.obj.sizeOf_spec]
    omega

/-- `Option<String>` rendered into a JSON field (serde serializes `None`
as `null` for the status report). -/
def Json.ofOptStr : Option String → Json
  | none => Json.null
  | some s => Json.str s

-- ─── types.rs ────────────────────────────────────────────────

/-- `types.rs` `JsonRpcMessage`: incoming JSON-RPC message; `id = none`
marks a notification. -/
structure JsonRpcMessage where
  jsonrpc : String
  id : Option Json
  method : String
  params : Json

/-- `types.rs` `JsonRpcError`. -/
structure JsonRpcError where
  code : Int
  message : String
  data : Option Json := none

/-- `types.rs` `JsonRpcResponse`. -/
structure JsonRpcResponse where
  jsonrpc : String
  id : Json
  result : Option Json
  error : Option JsonRpcError

/-- `JsonRpcResponse::success`. -/
def JsonRpcResponse.success (id : Json) (result : Json) : JsonRpcResponse :=
  { jsonrpc := "2.0", id := id, result := some result, error := none }

/-- `JsonRpcResponse::error`. -/
def JsonRpcResponse.mkError (id : Json) (code : Int) (message : String) : JsonRpcResponse :=
  { jsonrpc := "2.0", id := id, result := none,
    error := some { code := code, message := message } }

/-- `types.rs` `McpContent`. -/
inductive McpContent where
  | text (text : String) : McpContent
  | image (data : String) (mime_type : String) : McpContent

/-- `types.rs` `McpToolResult`. -/
structure McpToolResult where
  content : List McpContent
  is_error : Bool

/-- `McpToolResult::text`. -/
def McpToolResult.mkText (t : String) : McpToolResult :=
  { content := [McpContent.text t], is_error := false }

/-- `McpToolResult::error_text`. -/
def McpToolResult.error_text (t : String) : McpToolResult :=
  { content := [McpContent.text t], is_error := true }

/-- Serialization of one `McpContent` (serde derive with `tag = "type"`). -/
def McpContent.to_value : McpContent → Json
  | .text t => Json.obj [("type", Json.str "text"), ("text", Json.str t)]
  | .image d m =>
      Json.obj [("type", Json.str "image"), ("data", Json.str d), ("mimeType", Json.str m)]

/-- `McpToolResult::to_value`. -/
def McpToolResult.to_value (r : McpToolResult) : Json :=
  Json.obj [("content", Json.arr (r.content.map McpContent.to_value)),
            ("isError", Json.bool r.is_error)]

/-- `types.rs` `BridgeToolRequest` (wire, outbound to the plugin). -/
structure BridgeToolRequest where
  request_id : String
  tool_name : String
  arguments : Json

/-- `types.rs` `BridgeToolResponse` (wire, inbound from the plugin). -/
structure BridgeToolResponse where
  request_id : String
  success : Bool
  result : Option Json
  error : Option String

/-- `types.rs` `BridgeEvent`. -/
structure BridgeEvent where
  event_type : String
  data : Json

/-- `types.rs` `LogEntry`; `ts` is the f64 second count of the source,
kept here as the underlying millisecond count. -/
structure LogEntry where
  seq : Nat
  ts_ms : Int
  level : String
  message : String
  session_id : Option String

-- ─── string search (str::contains) ───────────────────────────

/-- Whether `pat` occurs at the head of `s` (helper for `strContains`). -/
def listStartsWith : List Char → List Char → Bool
  | _, [] => true
  | [], _ :: _ => false
  | a :: as, b :: bs => a == b && listStartsWith as bs

/-- Whether `pat` occurs contiguously anywhere in `s`. -/
def listContainsSeq : List Char → List Char → Bool
  | [], pat => pat.isEmpty
  | a :: rest, pat => listStartsWith (a :: rest) pat || listContainsSeq rest pat

/-- Rust `str::contains` with a string pattern. -/
def strContains (s pat : String) : Bool :=
  listContainsSeq s.data pat.data

-- ─── state.rs data model ─────────────────────────────────────

/-- `state.rs` `ClientState`.  `notify_count` instruments the number of
`notify_one` signals sent on the client wakeup handle. -/
structure ClientState where
  plugin_version : String
  outbound_queue : List BridgeToolRequest
  notify_count : Nat
  last_poll : Int

/-- `ClientState::is_playtest_bridge`: true when this client is the
playtest bridge (not the main plugin). -/
def ClientState.is_playtest_bridge (c : ClientState) : Bool :=
  strContains c.plugin_version "playtest"

/-- One entry of the `pending_calls` map: the stored `oneshot::Sender`,
with a flag recording whether the paired receiver is still alive. -/
structure PendingSlot where
  receiver_alive : Bool

/-- `state.rs` `PlaytestState`. -/
structure PlaytestState where
  active : Bool := false
  session_id : Option String := none
  mode : Option String := none

/-- `state.rs` `MAX_LOG_BUFFER`. -/
def MAX_LOG_BUFFER : Nat := 500

/-- Modulus of the `u64` log sequence counter. -/
def U64_MOD : Nat := 2 ^ 64

/-- The fields of `state.rs` `Inner` (every mutex-guarded field; the
capture directory is irrelevant to the claims and omitted). -/
structure ServerState where
  clients : List (String × ClientState)
  pending_calls : List (String × PendingSlot)
  log_buffer : List LogEntry
  log_seq : Nat
  playtest : PlaytestState

/-- `SharedState::new`. -/
def initial_state : ServerState :=
  { clients := [], pending_calls := [], log_buffer := [], log_seq := 0,
    playtest := {} }

-- ─── state.rs operations ─────────────────────────────────────

/-- `HashMap::get` on the association-list model (first binding with the
key, which under key uniqueness is the only one). -/
def lookupClient (clients : List (String × ClientState)) (k : String) : Option ClientState :=
  (clients.find? (fun kc => kc.1 == k)).map (fun kc => kc.2)

/-- `HashMap::get_mut` followed by a mutation: rewrite the first binding
with the key. -/
def updateClient (clients : List (String × ClientState)) (k : String)
    (f : ClientState → ClientState) : List (String × ClientState) :=
  match clients with
  | [] => []
  | (k', c) :: rest =>
      if k' == k then (k', f c) :: rest else (k', c) :: updateClient rest k f

/-- `SharedState::register_client`: `HashMap::insert` (replacing any
previous binding for the id). -/
def register_client (st : ServerState) (client_id plugin_version : String)
    (now : Int) : ServerState :=
  { st with clients :=
      (client_id,
        { plugin_version := plugin_version, outbound_queue := [],
          notify_count := 0, last_poll := now }) ::
      st.clients.filter (fun kc => !(kc.1 == client_id)) }

/-- `SharedState::prune_stale_clients`: remove clients whose `last_poll`
is older than 60 seconds before `now`. -/
def prune_stale_clients (st : ServerState) (now : Int) : ServerState :=
  { st with clients := st.clients.filter (fun kc => !(kc.2.last_poll < now - 60)) }

/-- `SharedState::has_connected_client`: prune, then report non-empty.
Returns the pruned state alongside the answer. -/
def has_connected_client (st : ServerState) (now : Int) : Bool × ServerState :=
  let st' := prune_stale_clients st now
  (!st'.clients.isEmpty, st')

/-- `SharedState::first_client_id`: first key of the registry snapshot. -/
def first_client_id (st : ServerState) : Option String :=
  st.clients.head?.map (fun kc => kc.1)

/-- The tool names of the `matches!` in `enqueue_tool_request`: tools
that run inside the playtest and prefer the bridge client. -/
def prefers_bridge (tool_name : String) : Bool :=
  match tool_name with
  | "studio-virtualuser_key" => true
  | "studio-virtualuser_mouse_button" => true
  | "studio-virtualuser_move_mouse" => true
  | "studio-npc_driver_start" => true
  | "studio-npc_driver_command" => true
  | "studio-npc_driver_stop" => true
  | "studio-playtest_stop" => true
  | _ => false

/-- One step of Rust `Iterator::max_by_key` on `last_poll`: keep the
later element, preferring the new one on ties (Rust returns the last
maximal element). -/
def pick_later (a b : String × ClientState) : String × ClientState :=
  if a.2.last_poll ≤ b.2.last_poll then b else a

/-- `clients.iter().max_by_key(|(_, c)| c.last_poll)`. -/
def max_by_last_poll : List (String × ClientState) → Option (String × ClientState)
  | [] => none
  | x :: xs => some (xs.foldl pick_later x)

/-- The `target_key` block of `enqueue_tool_request`: first client whose
classification matches `pb`, else the most recently polled client. -/
def route_target (clients : List (String × ClientState)) (pb : Bool) : Option String :=
  match clients.find? (fun kc => pb == kc.2.is_playtest_bridge) with
  | some kc => some kc.1
  | none => (max_by_last_poll clients).map (fun kc => kc.1)

/-- `SharedState::enqueue_tool_request`. -/
def enqueue_tool_request (st : ServerState) (request : BridgeToolRequest) :
    Bool × ServerState :=
  if st.clients.isEmpty then (false, st)
  else
    match route_target st.clients (prefers_bridge request.tool_name) with
    | some key =>
        match lookupClient st.clients key with
        | some _ =>
            (true,
             { st with clients := updateClient st.clients key (fun c =>
                 { c with outbound_queue := c.outbound_queue ++ [request],
                          notify_count := c.notify_count + 1 }) })
        | none => (false, st)
    | none => (false, st)

/-- `SharedState::drain_outbound`: take the whole queue and stamp
`last_poll := now`; unknown client drains nothing. -/
def drain_outbound (st : ServerState) (client_id : String) (now : Int) :
    ServerState × List BridgeToolRequest :=
  match lookupClient st.clients client_id with
  | some c =>
      ({ st with clients := updateClient st.clients client_id (fun c =>
           { c with last_poll := now, outbound_queue := [] }) },
       c.outbound_queue)
  | none => (st, [])

/-- `SharedState::get_notify`: presence of the wakeup handle. -/
def get_notify (st : ServerState) (client_id : String) : Option Unit :=
  (lookupClient st.clients client_id).map (fun _ => ())

/-- `SharedState::register_pending`: store a fresh one-shot sender whose
receiver is alive. -/
def register_pending (st : ServerState) (request_id : String) : ServerState :=
  { st with pending_calls :=
      (request_id, { receiver_alive := true }) ::
      st.pending_calls.filter (fun kv => !(kv.1 == request_id)) }

/-- Lookup in the pending table. -/
def pending_lookup (st : ServerState) (request_id : String) : Option PendingSlot :=
  (st.pending_calls.find? (fun kv => kv.1 == request_id)).map (fun kv => kv.2)

/-- `SharedState::resolve_pending`: remove the slot if present and send
the response into it (the send result is discarded by the source, so a
dead receiver is not observable here); returns whether a slot existed.
The `response` argument mirrors the source signature. -/
def resolve_pending (st : ServerState) (request_id : String)
    (response : BridgeToolResponse) : Bool × ServerState :=
  match pending_lookup st request_id with
  | some _ =>
      (true,
       { st with pending_calls :=
           st.pending_calls.filter (fun kv => !(kv.1 == request_id)) })
  | none => (false, st)

/-- Dropping the `oneshot::Receiver` of a pending call (what happens when
the 30 s timeout branch of `handle_tools_call` returns): the map entry
stays, its sender merely loses its receiver. -/
def drop_reply_receiver (st : ServerState) (request_id : String) : ServerState :=
  { st with pending_calls := st.pending_calls.map (fun kv =>
      if kv.1 == request_id then (kv.1, { receiver_alive := false }) else kv) }

/-- `SharedState::push_log`: bump the u64 counter, evict the head when at
capacity, append at the back. -/
def push_log (st : ServerState) (level message : String)
    (session_id : Option String) (now_ms : Int) : ServerState :=
  let seq' := (st.log_seq + 1) % U64_MOD
  let entry : LogEntry :=
    { seq := seq', ts_ms := now_ms, level := level, message := message,
      session_id := session_id }
  let buf :=
    if MAX_LOG_BUFFER ≤ st.log_buffer.length then st.log_buffer.drop 1
    else st.log_buffer
  { st with log_seq := seq', log_buffer := buf ++ [entry] }

/-- `SharedState::get_logs`. -/
def get_logs (st : ServerState) (since_seq : Nat) (limit : Nat) : List LogEntry :=
  (st.log_buffer.filter (fun e => since_seq < e.seq)).take limit

/-- `SharedState::update_playtest`: wholesale overwrite. -/
def update_playtest (st : ServerState) (active : Bool)
    (session_id mode : Option String) : ServerState :=
  { st with playtest := { active := active, session_id := session_id, mode := mode } }

/-- `SharedState::playtest_info`. -/
def playtest_info (st : ServerState) : Bool × Option String × Option String :=
  (st.playtest.active, st.playtest.session_id, st.playtest.mode)

-- ─── bridge_http.rs ──────────────────────────────────────────

/-- Outcome of the long-poll wait inside `handle_pull`: either the
wakeup fired (at wall-clock time `now2`, within the 25 s deadline) or
the 25 s deadline expired first. -/
inductive PullWait where
  | woken (now2 : Int) : PullWait
  | timedOut : PullWait

/-- Reply of `GET /pull`. -/
inductive PullReply where
  | ok (requests : List BridgeToolRequest) : PullReply
  | notFound : PullReply

/-- `bridge_http.rs` `handle_pull`: immediate drain; if empty, long-poll
on the wakeup handle (404 when the client is unknown); on wake drain
again, on deadline return the empty array. -/
def handle_pull (st : ServerState) (client_id : String) (now : Int)
    (wait : PullWait) : ServerState × PullReply :=
  let d := drain_outbound st client_id now
  if !d.2.isEmpty then (d.1, PullReply.ok d.2)
  else
    match get_notify d.1 client_id with
    | some _ =>
        match wait with
        | .woken now2 =>
            let d2 := drain_outbound d.1 client_id now2
            (d2.1, PullReply.ok d2.2)
        | .timedOut => (d.1, PullReply.ok [])
    | none => (d.1, PullReply.notFound)

/-- `bridge_http.rs` `handle_event`: classify one pushed event and apply
it to state.  Field extraction is defensive, with the defaults of the
source. -/
def handle_event (st : ServerState) (event : BridgeEvent) (now_ms : Int) : ServerState :=
  match event.event_type with
  | "studio.log" =>
      let level := ((event.data.get "level").bind Json.as_str).getD "output"
      let message := ((event.data.get "message").bind Json.as_str).getD ""
      let session_id := (event.data.get "sessionId").bind Json.as_str
      push_log st level message session_id now_ms
  | "studio.playtest_state" =>
      let active := ((event.data.get "active").bind Json.as_bool).getD false
      let session_id := (event.data.get "sessionId").bind Json.as_str
      let mode := (event.data.get "mode").bind Json.as_str
      update_playtest st active session_id mode
  | "studio.capture" => st
  | _ => st

/-- `bridge_http.rs` `handle_push`: resolve every carried response
(collecting the request ids for which no pending call was found — the
ids the source logs a warning for), then apply every event. -/
def handle_push (st : ServerState) (responses : List BridgeToolResponse)
    (events : List BridgeEvent) (now_ms : Int) : ServerState × List String :=
  let afterResponses :=
    responses.foldl
      (fun acc r =>
        let res := resolve_pending acc.1 r.request_id r
        (res.2, if res.1 then acc.2 else acc.2 ++ [r.request_id]))
      (st, ([] : List String))
  (events.foldl (fun s e => handle_event s e now_ms) afterResponses.1,
   afterResponses.2)

-- ─── mcp_stdio.rs ────────────────────────────────────────────

/-- serde deserialization of `JsonRpcMessage` (derive semantics for the
struct at types.rs lines 8-15): `jsonrpc` and `method` are required
strings, `id` is `Option<Value>` so a literal JSON `null` becomes `none`,
`params` has `#[serde(default)]` so a missing field becomes `Null`.
Duplicate-field errors of serde are not modelled (the first binding
wins), which no claim depends on. -/
def from_json_rpc (j : Json) : Except String JsonRpcMessage :=
  match j with
  | .obj _ =>
      match j.get "jsonrpc" with
      | some (.str v) =>
          match j.get "method" with
          | some (.str m) =>
              let id : Option Json :=
                match j.get "id" with
                | none => none
                | some .null => none
                | some other => some other
              let params := (j.get "params").getD Json.null
              Except.ok { jsonrpc := v, id := id, method := m, params := params }
          | _ => Except.error "missing field method"
      | _ => Except.error "missing field jsonrpc"
  | _ => Except.error "invalid type: not an object"

/-- How the body of the stdio read loop (mcp_stdio.rs lines 42-66)
classifies one non-empty line, given the parse result. -/
inductive StepOutcome where
  | parseError (detail : String) : StepOutcome
  | notice (method : String) : StepOutcome
  | request (id : Json) (method : String) (params : Json) : StepOutcome

/-- The dispatch of the loop body: parse failure → error response path;
missing id → notification path (no response); otherwise the request is
handed to `handle_request`. -/
def step_line (parsed : Except String JsonRpcMessage) : StepOutcome :=
  match parsed with
  | .error e => StepOutcome.parseError e
  | .ok msg =>
      match msg.id with
      | none => StepOutcome.notice msg.method
      | some id => StepOutcome.request id msg.method msg.params

/-- The response the loop itself writes for an outcome, before
`handle_request` runs: the parse-error branch emits the `-32700`
response with a null id; the notification branch emits nothing; the
request branch defers to `handle_request` (modelled separately). -/
def outcome_response (o : StepOutcome) : Option JsonRpcResponse :=
  match o with
  | .parseError e =>
      some (JsonRpcResponse.mkError Json.null (-32700) ("Parse error: " ++ e))
  | .notice _ => none
  | .request _ _ _ => none

/-- Whether the read loop keeps running after the outcome.  The
parse-error branch discards the send result (`let _ = tx.send(..)`), so
it always continues; the notification branch continues; the request
branch breaks only when the stdout writer channel has closed. -/
def step_continues (writer_open : Bool) (o : StepOutcome) : Bool :=
  match o with
  | .parseError _ => true
  | .notice _ => true
  | .request _ _ _ => writer_open

/-- The match arms of `handle_notification` (which takes no state and
only traces). -/
inductive NoticeLog where
  | initializedArm : NoticeLog
  | cancelledArm : NoticeLog
  | unknownArm (method : String) : NoticeLog

/-- `mcp_stdio.rs` `handle_notification`. -/
def handle_notification (method : String) : NoticeLog :=
  match method with
  | "notifications/initialized" => NoticeLog.initializedArm
  | "notifications/cancelled" => NoticeLog.cancelledArm
  | m => NoticeLog.unknownArm m

/-- `mcp_stdio.rs` `handle_status_tool`: the `studio-status` shortcut,
synthesized from state (prunes via `has_connected_client`). -/
def handle_status_tool (st : ServerState) (id : Json) (now : Int) :
    JsonRpcResponse × ServerState :=
  let conn := has_connected_client st now
  let st1 := conn.2
  let clients_json : List Json := st1.clients.map (fun kc =>
    Json.obj [("clientId", Json.str kc.1),
              ("version", Json.str kc.2.plugin_version),
              ("isBridge", Json.bool kc.2.is_playtest_bridge),
              ("lastPollSecsAgo", Json.num (now - kc.2.last_poll))])
  let pt := playtest_info st1
  let result :=
    Json.obj [("connected", Json.bool conn.1),
              ("clientId", Json.ofOptStr (first_client_id st1)),
              ("clients", Json.arr clients_json),
              ("playtest",
                Json.obj [("active", Json.bool pt.1),
                          ("sessionId", Json.ofOptStr pt.2.1),
                          ("mode", Json.ofOptStr pt.2.2)])]
  (JsonRpcResponse.success id
     (McpToolResult.to_value
       { content := [McpContent.text (Json.render result)], is_error := false }),
   st1)

/-- The `disabled_reason` match of `handle_tools_call`. -/
def disabled_reason (tool_name : String) : Option String :=
  match tool_name with
  | "studio-capture_screenshot" =>
      some "Unsupported: CaptureService returns rbxtemp:// content IDs that cannot be extracted as files from a plugin."
  | "studio-capture_video_start" =>
      some "Unsupported: CaptureService does not expose a video recording API."
  | "studio-capture_video_stop" =>
      some "Unsupported: CaptureService does not expose a video recording API."
  | _ => none

/-- Where `handle_tools_call` stands after its synchronous opening
phase: either a response was produced without awaiting the plugin, or a
pending call was registered and enqueued and the handler now awaits the
reply slot under the 30 s deadline. -/
inductive ToolCallPhase where
  | immediate (response : JsonRpcResponse) (st : ServerState) : ToolCallPhase
  | awaiting (request_id tool_name : String) (st : ServerState) : ToolCallPhase

/-- The message of the no-plugin shortcut. -/
def no_plugin_msg : String :=
  "No Roblox Studio plugin connected. Install the plugin and click Connect."

/-- `mcp_stdio.rs` `handle_tools_call`, up to (and excluding) the await
on the reply slot.  `fresh_id` is the freshly minted request UUID, `now`
the wall-clock second used by the pruning inside
`has_connected_client`. -/
def handle_tools_call_start (st : ServerState) (id : Json) (params : Json)
    (fresh_id : String) (now : Int) : ToolCallPhase :=
  match (params.get "name").bind Json.as_str with
  | none =>
      ToolCallPhase.immediate
        (JsonRpcResponse.mkError id (-32602) "Missing \x27name\x27 in tools/call params") st
  | some tool_name =>
      let arguments := (params.get "arguments").getD (Json.obj [])
      if tool_name == "studio-status" then
        let r := handle_status_tool st id now
        ToolCallPhase.immediate r.1 r.2
      else
        match disabled_reason tool_name with
        | some reason =>
            ToolCallPhase.immediate
              (JsonRpcResponse.success id (McpToolResult.error_text reason).to_value) st
        | none =>
            let conn := has_connected_client st now
            if !conn.1 then
              ToolCallPhase.immediate
                (JsonRpcResponse.success id (McpToolResult.error_text no_plugin_msg).to_value)
                conn.2
            else
              let st2 := register_pending conn.2 fresh_id
              let breq : BridgeToolRequest :=
                { request_id := fresh_id, tool_name := tool_name, arguments := arguments }
              let enq := enqueue_tool_request st2 breq
              if !enq.1 then
                ToolCallPhase.immediate
                  (JsonRpcResponse.success id
                    (McpToolResult.error_text "Failed to enqueue tool request to plugin").to_value)
                  enq.2
              else ToolCallPhase.awaiting fresh_id tool_name enq.2

/-- Outcome of `tokio::time::timeout(TOOL_CALL_TIMEOUT, rx)`. -/
inductive AwaitOutcome where
  | resolved (response : BridgeToolResponse) : AwaitOutcome
  | senderDropped : AwaitOutcome
  | deadline : AwaitOutcome

/-- The success-path text of `handle_tools_call`: a JSON string result is
surfaced raw, other JSON is pretty-printed, an absent result becomes
"ok". -/
def tool_result_text (result : Option Json) : String :=
  match result with
  | some (Json.str s) => s
  | some v => Json.render v
  | none => "ok"

/-- `mcp_stdio.rs` `handle_tools_call`, the await on the reply slot.  On
the 30 s deadline the handler returns, dropping its receiver — note that
it does not remove the pending-table entry. -/
def handle_tools_call_await (st : ServerState) (id : Json)
    (tool_name request_id : String) (outcome : AwaitOutcome) :
    JsonRpcResponse × ServerState :=
  match outcome with
  | .resolved r =>
      if r.success then
        (JsonRpcResponse.success id (McpToolResult.mkText (tool_result_text r.result)).to_value,
         st)
      else
        (JsonRpcResponse.success id
          (McpToolResult.error_text (r.error.getD "Unknown plugin error")).to_value, st)
  | .senderDropped =>
      (JsonRpcResponse.success id
        (McpToolResult.error_text "Plugin disconnected while processing tool call").to_value,
       st)
  | .deadline =>
      (JsonRpcResponse.success id
        (McpToolResult.error_text
          ("Tool call \x27" ++ tool_name ++ "\x27 timed out after 30s. Is the Studio plugin running?")).to_value,
       drop_reply_receiver st request_id)

-- ─── trace helpers for the log claims ────────────────────────

/-- One `push_log` input. -/
structure PushInput where
  level : String
  message : String
  session_id : Option String
  ts_ms : Int

/-- A trace of `push_log` calls applied in order. -/
def apply_pushes (st : ServerState) (inputs : List PushInput) : ServerState :=
  inputs.foldl (fun s i => push_log s i.level i.message i.session_id i.ts_ms) st

/-- The seq value assigned by the n-th `push_log` call of a trace (the
counter value right after that call). -/
def seq_of_call (inputs : List PushInput) (n : Nat) : Nat :=
  (apply_pushes initial_state (inputs.take n)).log_seq

-- ─── helper lemmas ───────────────────────────────────────────

/-- Under unique keys, a member of the registry is what `lookupClient`
finds for its key. -/
theorem lookupClient_of_mem_nodup {l : List (String × ClientState)}
    {kc : String × ClientState} (hnd : (l.map Prod.fst).Nodup) (hm : kc ∈ l) :
    lookupClient l kc.1 = some kc.2 := by
  induction l with
  | nil => cases hm
  | cons x xs ih =>
      simp only [List.map_cons, List.nodup_cons] at hnd
      rcases List.mem_cons.mp hm with h | h
      · subst h
        simp [lookupClient]
      · have hne : (x.1 == kc.1) = false := by
          cases hb : (x.1 == kc.1)
          · rfl
          · have hx : x.1 = kc.1 := by simpa using hb
            exact absurd (hx ▸ List.mem_map.mpr ⟨kc, h, rfl⟩) hnd.1
        have hrec := ih hnd.2 h
        simp only [lookupClient, List.find?_cons, hne] at hrec ⊢
        exact hrec

/-- `updateClient` rewrites exactly the binding `lookupClient` sees. -/
theorem lookupClient_updateClient_self {l : List (String × ClientState)}
    {k : String} {c : ClientState} (f : ClientState → ClientState)
    (h : lookupClient l k = some c) :
    lookupClient (updateClient l k f) k = some (f c) := by
  induction l with
  | nil => simp [lookupClient] at h
  | cons x xs ih =>
      cases x with
      | mk k2 c2 =>
          cases hk : (k2 == k) with
          | true =>
              have hc : c2 = c := by
                simp only [lookupClient, List.find?_cons, hk] at h
                simpa using h
              subst hc
              simp [updateClient, lookupClient, List.find?_cons, hk]
          | false =>
              have h2 : lookupClient xs k = some c := by
                simpa only [lookupClient, List.find?_cons, hk] using h
              have hrec := ih h2
              simp only [updateClient, hk, Bool.false_eq_true, if_false]
              simpa only [lookupClient, List.find?_cons, hk] using hrec

/-- The fold implementing `max_by_key` returns an element of the list. -/
theorem foldl_pick_later_mem (x : String × ClientState)
    (xs : List (String × ClientState)) : xs.foldl pick_later x ∈ x :: xs := by
  induction xs generalizing x with
  | nil => simp
  | cons y ys ih =>
      rw [List.foldl_cons]
      have h := ih (pick_later x y)
      have hxy : pick_later x y = x ∨ pick_later x y = y := by
        unfold pick_later
        split
        · exact Or.inr rfl
        · exact Or.inl rfl
      rcases List.mem_cons.mp h with h1 | h1
      · rcases hxy with h2 | h2 <;> rw [h1, h2] <;> simp
      · exact List.mem_cons.mpr (Or.inr (List.mem_cons.mpr (Or.inr h1)))

/-- The fold implementing `max_by_key` dominates every element. -/
theorem foldl_pick_later_ge (x : String × ClientState)
    (xs : List (String × ClientState)) :
    ∀ y ∈ x :: xs, y.2.last_poll ≤ (xs.foldl pick_later x).2.last_poll := by
  induction xs generalizing x with
  | nil => simp
  | cons z zs ih =>
      intro y hy
      rw [List.foldl_cons]
      have hx : x.2.last_poll ≤ (pick_later x z).2.last_poll := by
        unfold pick_later
        split <;> omega
      have hz : z.2.last_poll ≤ (pick_later x z).2.last_poll := by
        unfold pick_later
        split <;> omega
      have hhead := ih (pick_later x z) (pick_later x z) (List.mem_cons_self _ _)
      rcases List.mem_cons.mp hy with h | h
      · subst h
        exact le_trans hx hhead
      · rcases List.mem_cons.mp h with h | h
        · subst h
          exact le_trans hz hhead
        · exact ih (pick_later x z) y (List.mem_cons.mpr (Or.inr h))

/-- Everything the routing claims need about `enqueue_tool_request` on a
non-empty registry with unique client ids: the call returns true, the
request is appended to exactly the queue of a chosen registered client
and that client receives one wake signal; the chosen client has the
preferred classification whenever some registered client does, and
otherwise dominates every registered client in `last_poll`. -/
theorem enqueue_tool_request_spec (st : ServerState) (req : BridgeToolRequest)
    (hne : st.clients ≠ []) (hnd : (st.clients.map Prod.fst).Nodup) :
    ∃ key c,
      lookupClient st.clients key = some c ∧
      enqueue_tool_request st req =
        (true,
         { st with clients := updateClient st.clients key (fun c =>
             { c with outbound_queue := c.outbound_queue ++ [req],
                      notify_count := c.notify_count + 1 }) }) ∧
      lookupClient (enqueue_tool_request st req).2.clients key =
        some { c with outbound_queue := c.outbound_queue ++ [req],
                      notify_count := c.notify_count + 1 } ∧
      ((∃ kc ∈ st.clients, kc.2.is_playtest_bridge = prefers_bridge req.tool_name) →
        c.is_playtest_bridge = prefers_bridge req.tool_name) ∧
      ((∀ kc ∈ st.clients, kc.2.is_playtest_bridge ≠ prefers_bridge req.tool_name) →
        ∀ kc ∈ st.clients, kc.2.last_poll ≤ c.last_poll) := by
  have hemp : st.clients.isEmpty = false := by
    cases hc : st.clients
    · exact absurd hc hne
    · rfl
  cases hf : st.clients.find?
      (fun kc => prefers_bridge req.tool_name == kc.2.is_playtest_bridge) with
  | some kc =>
      have hp := List.find?_some hf
      have hpeq : kc.2.is_playtest_bridge = prefers_bridge req.tool_name := by
        have : prefers_bridge req.tool_name = kc.2.is_playtest_bridge := by
          simpa using hp
        exact this.symm
      have hmem : kc ∈ st.clients := List.mem_of_find?_eq_some hf
      have hlk := lookupClient_of_mem_nodup hnd hmem
      have hroute : route_target st.clients (prefers_bridge req.tool_name) = some kc.1 := by
        simp [route_target, hf]
      have henq : enqueue_tool_request st req =
          (true,
           { st with clients := updateClient st.clients kc.1 (fun c =>
               { c with outbound_queue := c.outbound_queue ++ [req],
                        notify_count := c.notify_count + 1 }) }) := by
        simp only [enqueue_tool_request, hemp, Bool.false_eq_true, if_false, hroute, hlk]
      refine ⟨kc.1, kc.2, hlk, henq, ?_, ?_, ?_⟩
      · rw [henq]
        exact lookupClient_updateClient_self _ hlk
      · intro _
        exact hpeq
      · intro hall
        exact absurd hpeq (hall kc hmem)
  | none =>
      have hall : ∀ kc ∈ st.clients,
          kc.2.is_playtest_bridge ≠ prefers_bridge req.tool_name := by
        intro kc hm heq
        have := List.find?_eq_none.mp hf kc hm
        simp [heq] at this
      obtain ⟨x, xs, hcl⟩ : ∃ x xs, st.clients = x :: xs := by
        cases hc : st.clients
        · exact absurd hc hne
        · exact ⟨_, _, rfl⟩
      have hmax : max_by_last_poll st.clients = some (xs.foldl pick_later x) := by
        rw [hcl]
        rfl
      have hmmem : xs.foldl pick_later x ∈ st.clients := by
        rw [hcl]
        exact foldl_pick_later_mem x xs
      have hge : ∀ y ∈ st.clients, y.2.last_poll ≤ (xs.foldl pick_later x).2.last_poll := by
        rw [hcl]
        exact foldl_pick_later_ge x xs
      have hlk := lookupClient_of_mem_nodup hnd hmmem
      have hroute : route_target st.clients (prefers_bridge req.tool_name) =
          some (xs.foldl pick_later x).1 := by
        simp [route_target, hf, hmax]
      have henq : enqueue_tool_request st req =
          (true,
           { st with clients := updateClient st.clients (xs.foldl pick_later x).1 (fun c =>
               { c with outbound_queue := c.outbound_queue ++ [req],
                        notify_count := c.notify_count + 1 }) }) := by
        simp only [enqueue_tool_request, hemp, Bool.false_eq_true, if_false, hroute, hlk]
      refine ⟨(xs.foldl pick_later x).1, (xs.foldl pick_later x).2, hlk, henq, ?_, ?_, ?_⟩
      · rw [henq]
        exact lookupClient_updateClient_self _ hlk
      · intro hex
        obtain ⟨kc, hkm, hkeq⟩ := hex
        exact absurd hkeq (hall kc hkm)
      · intro _
        exact hge

-- ─── sample fixtures for witnesses ───────────────────────────

/-- A registered main-plugin client (version without "playtest"). -/
def sample_client : ClientState :=
  { plugin_version := "1.0", outbound_queue := [], notify_count := 0, last_poll := 100 }

/-- A registered playtest-bridge client. -/
def sample_bridge : ClientState :=
  { plugin_version := "1.0-playtest", outbound_queue := [], notify_count := 0, last_poll := 90 }

/-- A state with both clients registered. -/
def sample_state : ServerState :=
  { clients := [("c1", sample_client), ("c2", sample_bridge)],
    pending_calls := [], log_buffer := [], log_seq := 0, playtest := {} }

/-- A plugin-bound tool request. -/
def sample_request : BridgeToolRequest :=
  { request_id := "r1", tool_name := "studio-run_script", arguments := Json.obj [] }

/-- A log push input. -/
def sample_push : PushInput :=
  { level := "output", message := "", session_id := none, ts_ms := 0 }

/-- A successful bridge response for request "r1". -/
def sample_response : BridgeToolResponse :=
  { request_id := "r1", success := true, result := none, error := none }

-- ─── claims ──────────────────────────────────────────────────

/-- C4: `enqueue_tool_request` returns false iff the registry is empty at
the call; with at least one registered client it appends the request to
the queue of some registered client, signals that client wakeup once,
and returns true. -/
theorem C4_enqueue_returns_true_iff_nonempty (st : ServerState)
    (req : BridgeToolRequest) (hnd : (st.clients.map Prod.fst).Nodup) :
    (st.clients = [] → enqueue_tool_request st req = (false, st)) ∧
    (st.clients ≠ [] →
      (enqueue_tool_request st req).1 = true ∧
      ∃ key c, lookupClient st.clients key = some c ∧
        lookupClient (enqueue_tool_request st req).2.clients key =
          some { c with outbound_queue := c.outbound_queue ++ [req],
                        notify_count := c.notify_count + 1 }) := by
  constructor
  · intro h
    simp [enqueue_tool_request, h]
  · intro hne
    obtain ⟨key, c, hlk, henq, hlk2, _, _⟩ := enqueue_tool_request_spec st req hne hnd
    exact ⟨by rw [henq], key, c, hlk, hlk2⟩

/-- Witness for C4 at a concrete two-client state. -/
theorem C4_enqueue_returns_true_iff_nonempty_witness :
    (List.map Prod.fst sample_state.clients).Nodup ∧
    ((sample_state.clients = [] →
        enqueue_tool_request sample_state sample_request = (false, sample_state)) ∧
      (sample_state.clients ≠ [] →
        (enqueue_tool_request sample_state sample_request).1 = true ∧
        ∃ key c, lookupClient sample_state.clients key = some c ∧
          lookupClient (enqueue_tool_request sample_state sample_request).2.clients key =
            some { c with outbound_queue := c.outbound_queue ++ [sample_request],
                          notify_count := c.notify_count + 1 })) :=
  ⟨by decide, C4_enqueue_returns_true_iff_nonempty sample_state sample_request (by decide)⟩

/-- C2: routing of `tools/call` among registered clients: a bridge-tool
request goes to a client whose version contains "playtest" whenever one
is registered, any other request goes to a client whose version does not
contain "playtest" whenever one is registered, and with no client of the
preferred classification the request goes to a client with the most
recent `last_poll`. -/
theorem C2_routing_policy (st : ServerState) (req : BridgeToolRequest)
    (hne : st.clients ≠ []) (hnd : (st.clients.map Prod.fst).Nodup) :
    ∃ key c,
      lookupClient st.clients key = some c ∧
      lookupClient (enqueue_tool_request st req).2.clients key =
        some { c with outbound_queue := c.outbound_queue ++ [req],
                      notify_count := c.notify_count + 1 } ∧
      (prefers_bridge req.tool_name = true →
        (∃ kc ∈ st.clients, strContains kc.2.plugin_version "playtest" = true) →
        strContains c.plugin_version "playtest" = true) ∧
      (prefers_bridge req.tool_name = false →
        (∃ kc ∈ st.clients, strContains kc.2.plugin_version "playtest" = false) →
        strContains c.plugin_version "playtest" = false) ∧
      ((∀ kc ∈ st.clients,
          strContains kc.2.plugin_version "playtest" ≠ prefers_bridge req.tool_name) →
        ∀ kc ∈ st.clients, kc.2.last_poll ≤ c.last_poll) := by
  obtain ⟨key, c, hlk, henq, hlk2, hpref, hfall⟩ :=
    enqueue_tool_request_spec st req hne hnd
  refine ⟨key, c, hlk, hlk2, ?_, ?_, ?_⟩
  · intro hpb hex
    obtain ⟨kc, hm, hc⟩ := hex
    have h := hpref ⟨kc, hm, by rw [hpb]; exact hc⟩
    rw [hpb] at h
    exact h
  · intro hpb hex
    obtain ⟨kc, hm, hc⟩ := hex
    have h := hpref ⟨kc, hm, by rw [hpb]; exact hc⟩
    rw [hpb] at h
    exact h
  · intro hall
    exact hfall (fun kc hm => hall kc hm)

/-- Witness for C2: a bridge tool in the two-client state. -/
theorem C2_routing_policy_witness :
    (sample_state.clients ≠ [] ∧ (List.map Prod.fst sample_state.clients).Nodup) ∧
    (∃ key c,
      lookupClient sample_state.clients key = some c ∧
      lookupClient
          (enqueue_tool_request sample_state
            { request_id := "r2", tool_name := "studio-virtualuser_key",
              arguments := Json.obj [] }).2.clients key =
        some { c with outbound_queue := c.outbound_queue ++
                        [{ request_id := "r2", tool_name := "studio-virtualuser_key",
                           arguments := Json.obj [] }],
                      notify_count := c.notify_count + 1 } ∧
      (prefers_bridge "studio-virtualuser_key" = true →
        (∃ kc ∈ sample_state.clients,
          strContains kc.2.plugin_version "playtest" = true) →
        strContains c.plugin_version "playtest" = true) ∧
      (prefers_bridge "studio-virtualuser_key" = false →
        (∃ kc ∈ sample_state.clients,
          strContains kc.2.plugin_version "playtest" = false) →
        strContains c.plugin_version "playtest" = false) ∧
      ((∀ kc ∈ sample_state.clients,
          strContains kc.2.plugin_version "playtest" ≠ prefers_bridge "studio-virtualuser_key") →
        ∀ kc ∈ sample_state.clients, kc.2.last_poll ≤ c.last_poll)) :=
  ⟨⟨List.cons_ne_nil _ _, by decide⟩,
   C2_routing_policy sample_state
     { request_id := "r2", tool_name := "studio-virtualuser_key", arguments := Json.obj [] }
     (List.cons_ne_nil _ _) (by decide)⟩

/-- C6: the log buffer never exceeds `MAX_LOG_BUFFER` = 500 entries: a
`push_log` at capacity evicts the front entry before appending at the
back, a `push_log` below capacity grows the buffer by one, and every
other state operation leaves the buffer untouched. -/
theorem C6_log_buffer_bounded (st : ServerState) (level message : String)
    (sid : Option String) (ts : Int) (req : BridgeToolRequest)
    (cid v rid : String) (resp : BridgeToolResponse) (now : Int)
    (a : Bool) (psid pmode : Option String)
    (h : st.log_buffer.length ≤ MAX_LOG_BUFFER) :
    (push_log st level message sid ts).log_buffer.length ≤ MAX_LOG_BUFFER ∧
    (st.log_buffer.length = MAX_LOG_BUFFER →
      (push_log st level message sid ts).log_buffer =
        st.log_buffer.drop 1 ++
          [{ seq := (st.log_seq + 1) % U64_MOD, ts_ms := ts, level := level,
             message := message, session_id := sid }]) ∧
    (enqueue_tool_request st req).2.log_buffer = st.log_buffer ∧
    (drain_outbound st cid now).1.log_buffer = st.log_buffer ∧
    (resolve_pending st rid resp).2.log_buffer = st.log_buffer ∧
    (register_pending st rid).log_buffer = st.log_buffer ∧
    (register_client st cid v now).log_buffer = st.log_buffer ∧
    (prune_stale_clients st now).log_buffer = st.log_buffer ∧
    (update_playtest st a psid pmode).log_buffer = st.log_buffer := by
  refine ⟨?_, ?_, ?_, ?_, ?_, rfl, rfl, rfl, rfl⟩
  · have h500 : st.log_buffer.length ≤ 500 := h
    simp only [push_log, MAX_LOG_BUFFER]
    split
    · rename_i hge
      simp only [List.length_append, List.length_drop, List.length_cons,
        List.length_nil]
      omega
    · rename_i hlt
      simp only [List.length_append, List.length_cons, List.length_nil]
      omega
  · intro hcap
    have hge : MAX_LOG_BUFFER ≤ st.log_buffer.length := le_of_eq hcap.symm
    simp only [push_log, if_pos hge]
  · unfold enqueue_tool_request
    split
    · rfl
    · split
      · split
        · rfl
        · rfl
      · rfl
  · unfold drain_outbound
    split
    · rfl
    · rfl
  · unfold resolve_pending
    split
    · rfl
    · rfl

/-- Witness for C6 at the concrete two-client state. -/
theorem C6_log_buffer_bounded_witness :
    sample_state.log_buffer.length ≤ MAX_LOG_BUFFER ∧
    ((push_log sample_state "output" "hi" none 0).log_buffer.length ≤ MAX_LOG_BUFFER ∧
    (sample_state.log_buffer.length = MAX_LOG_BUFFER →
      (push_log sample_state "output" "hi" none 0).log_buffer =
        sample_state.log_buffer.drop 1 ++
          [{ seq := (sample_state.log_seq + 1) % U64_MOD, ts_ms := 0, level := "output",
             message := "hi", session_id := none }]) ∧
    (enqueue_tool_request sample_state sample_request).2.log_buffer =
      sample_state.log_buffer ∧
    (drain_outbound sample_state "c1" 101).1.log_buffer = sample_state.log_buffer ∧
    (resolve_pending sample_state "r1" sample_response).2.log_buffer =
      sample_state.log_buffer ∧
    (register_pending sample_state "r1").log_buffer = sample_state.log_buffer ∧
    (register_client sample_state "c3" "2.0" 101).log_buffer = sample_state.log_buffer ∧
    (prune_stale_clients sample_state 101).log_buffer = sample_state.log_buffer ∧
    (update_playtest sample_state true none none).log_buffer = sample_state.log_buffer) :=
  ⟨by decide,
   C6_log_buffer_bounded sample_state "output" "hi" none 0 sample_request
     "c1" "2.0" "r1" sample_response 101 true none none (by decide)⟩

/-- The seq counter after one `push_log`. -/
theorem push_log_log_seq (st : ServerState) (l m : String) (sid : Option String)
    (ts : Int) : (push_log st l m sid ts).log_seq = (st.log_seq + 1) % U64_MOD := rfl

/-- Unfolding a push trace one step. -/
theorem apply_pushes_cons (st : ServerState) (i : PushInput) (rest : List PushInput) :
    apply_pushes st (i :: rest) =
      apply_pushes (push_log st i.level i.message i.session_id i.ts_ms) rest := rfl

/-- The seq counter after a push trace is the trace length added to the
starting counter, modulo 2^64. -/
theorem apply_pushes_log_seq (inputs : List PushInput) :
    ∀ st : ServerState, st.log_seq < U64_MOD →
      (apply_pushes st inputs).log_seq = (st.log_seq + inputs.length) % U64_MOD := by
  induction inputs with
  | nil =>
      intro st h
      simp [apply_pushes, Nat.mod_eq_of_lt h]
  | cons i rest ih =>
      intro st h
      have hpos : 0 < U64_MOD := by norm_num [U64_MOD]
      rw [apply_pushes_cons, ih _ (Nat.mod_lt _ hpos), push_log_log_seq,
        Nat.mod_add_mod, List.length_cons]
      congr 1
      omega

/-- The seq value assigned by the n-th call of a trace started from the
fresh server state. -/
theorem seq_of_call_eq (inputs : List PushInput) (n : Nat)
    (hn : n ≤ inputs.length) : seq_of_call inputs n = n % U64_MOD := by
  unfold seq_of_call
  rw [apply_pushes_log_seq _ initial_state (by norm_num [initial_state, U64_MOD])]
  simp [initial_state, List.length_take, Nat.min_eq_left hn]

/-- C5 counterexample: the u64 seq counter wraps, so the call numbered
2^64 + 1 assigns the same seq as the first call — the claimed strict
monotonicity across the whole process lifetime fails. -/
theorem C5_counterexample :
    seq_of_call (List.replicate (U64_MOD + 1) sample_push) (U64_MOD + 1) =
      seq_of_call (List.replicate (U64_MOD + 1) sample_push) 1 ∧
    U64_MOD + 1 ≠ 1 := by
  constructor
  · rw [seq_of_call_eq _ _ (le_of_eq (List.length_replicate _ _).symm),
      seq_of_call_eq _ _ (by simp [List.length_replicate])]
    rw [Nat.add_mod_left]
  · norm_num [U64_MOD]

/-- C5 (amended): among the first 2^64 − 1 `push_log` calls of any trace
from the fresh state, assigned seqs are strictly increasing (hence
pairwise distinct); the u64 counter wraps after 2^64 calls. -/
theorem C5_seq_strictly_increasing (inputs : List PushInput) (m n : Nat)
    (hmn : m < n) (hn : n ≤ inputs.length) (hM : n < U64_MOD) :
    seq_of_call inputs m < seq_of_call inputs n := by
  rw [seq_of_call_eq inputs m (le_trans (le_of_lt hmn) hn), seq_of_call_eq inputs n hn,
    Nat.mod_eq_of_lt (lt_trans hmn hM), Nat.mod_eq_of_lt hM]
  exact hmn

/-- Witness for the amended C5 on a two-push trace. -/
theorem C5_seq_strictly_increasing_witness :
    (1 < 2 ∧ 2 ≤ (List.replicate 2 sample_push).length ∧ 2 < U64_MOD) ∧
    seq_of_call (List.replicate 2 sample_push) 1 <
      seq_of_call (List.replicate 2 sample_push) 2 :=
  ⟨⟨by decide, by simp [List.length_replicate], by norm_num [U64_MOD]⟩,
   C5_seq_strictly_increasing (List.replicate 2 sample_push) 1 2 (by decide)
     (by simp [List.length_replicate]) (by norm_num [U64_MOD])⟩

-- ─── pending-table lemmas ────────────────────────────────────

/-- After filtering a key out, `find?` for that key fails. -/
theorem find_filter_ne_none (l : List (String × PendingSlot)) (r : String) :
    (l.filter (fun kv => !(kv.1 == r))).find? (fun kv => kv.1 == r) = none := by
  rw [List.find?_eq_none]
  intro x hx
  have h2 := (List.mem_filter.mp hx).2
  intro hbeq
  rw [hbeq] at h2
  simp at h2

/-- `resolve_pending` on a present slot: removes it and returns true. -/
theorem resolve_pending_of_some {st : ServerState} {r : String} {s : PendingSlot}
    (resp : BridgeToolResponse) (h : pending_lookup st r = some s) :
    resolve_pending st r resp =
      (true,
       { st with pending_calls := st.pending_calls.filter (fun kv => !(kv.1 == r)) }) := by
  unfold resolve_pending
  rw [h]

/-- `resolve_pending` on an absent slot: no state change, returns false. -/
theorem resolve_pending_of_none {st : ServerState} {r : String}
    (resp : BridgeToolResponse) (h : pending_lookup st r = none) :
    resolve_pending st r resp = (false, st) := by
  unfold resolve_pending
  rw [h]

/-- Once a request id is filtered out of the pending table, lookup for it
fails. -/
theorem pending_lookup_after_remove (st : ServerState) (r : String) :
    pending_lookup
      { st with pending_calls := st.pending_calls.filter (fun kv => !(kv.1 == r)) } r =
      none := by
  unfold pending_lookup
  rw [find_filter_ne_none]
  rfl

/-- Marking the receiver dead rewrites the slot `find?` sees, without
removing it. -/
theorem find_drop_list (l : List (String × PendingSlot)) (r : String)
    (h : (l.find? (fun kv => kv.1 == r)).isSome) :
    ((l.map (fun kv =>
        if kv.1 == r then (kv.1, ({ receiver_alive := false } : PendingSlot)) else kv)).find?
      (fun kv => kv.1 == r)).map (fun kv => kv.2) =
      some { receiver_alive := false } := by
  induction l with
  | nil => simp at h
  | cons x xs ih =>
      by_cases hx : (x.1 == r) = true
      · have hhead :
            (if (x.1 == r) = true then (x.1, ({ receiver_alive := false } : PendingSlot))
              else x) = (x.1, { receiver_alive := false }) := if_pos hx
        rw [List.map_cons, hhead,
          List.find?_cons_of_pos (p := fun kv : String × PendingSlot => kv.1 == r) _
            (show (((x.1, ({ receiver_alive := false } : PendingSlot))).1 == r) = true from hx)]
        rfl
      · have hhead :
            (if (x.1 == r) = true then (x.1, ({ receiver_alive := false } : PendingSlot))
              else x) = x := if_neg hx
        rw [List.map_cons, hhead,
          List.find?_cons_of_neg (p := fun kv : String × PendingSlot => kv.1 == r) _ hx]
        have h' : (xs.find? (fun kv => kv.1 == r)).isSome := by
          rw [List.find?_cons_of_neg (p := fun kv : String × PendingSlot => kv.1 == r) _ hx] at h
          exact h
        exact ih h'

/-- `drop_reply_receiver` keeps the pending entry, with a dead
receiver. -/
theorem pending_lookup_drop {st : ServerState} {r : String} {s : PendingSlot}
    (h : pending_lookup st r = some s) :
    pending_lookup (drop_reply_receiver st r) r = some { receiver_alive := false } := by
  have hs : (st.pending_calls.find? (fun kv => kv.1 == r)).isSome := by
    unfold pending_lookup at h
    cases hf : st.pending_calls.find? (fun kv => kv.1 == r)
    · rw [hf] at h
      cases h
    · rfl
  unfold pending_lookup drop_reply_receiver
  exact find_drop_list st.pending_calls r hs

-- ─── C7 ──────────────────────────────────────────────────────

/-- C7: a pending reply slot is fulfilled at most once: after a first
`resolve_pending` for a request id succeeds, a second `resolve_pending`
for the same id changes no state and returns false, and a /push carrying
that id leaves the state unchanged and logs a warning for it. -/
theorem C7_resolve_at_most_once (st : ServerState) (r : String)
    (resp resp2 : BridgeToolResponse) (hr : resp2.request_id = r)
    (h : (resolve_pending st r resp).1 = true) :
    resolve_pending (resolve_pending st r resp).2 r resp2 =
      (false, (resolve_pending st r resp).2) ∧
    (handle_push (resolve_pending st r resp).2 [resp2] [] 0).1 =
      (resolve_pending st r resp).2 ∧
    (handle_push (resolve_pending st r resp).2 [resp2] [] 0).2 = [r] := by
  cases hl : pending_lookup st r with
  | none =>
      rw [resolve_pending_of_none resp hl] at h
      cases h
  | some s =>
      have he := resolve_pending_of_some resp hl
      have hnone := pending_lookup_after_remove st r
      have hres2 := resolve_pending_of_none resp2 hnone
      rw [he]
      refine ⟨hres2, ?_, ?_⟩
      · simp [handle_push, hr, hres2]
      · simp [handle_push, hr, hres2]

/-- Witness for C7: resolving, then re-delivering, request "r1". -/
theorem C7_resolve_at_most_once_witness :
    (sample_response.request_id = "r1" ∧
      (resolve_pending (register_pending sample_state "r1") "r1" sample_response).1 = true) ∧
    (resolve_pending
        (resolve_pending (register_pending sample_state "r1") "r1" sample_response).2 "r1"
        sample_response =
      (false, (resolve_pending (register_pending sample_state "r1") "r1" sample_response).2) ∧
    (handle_push (resolve_pending (register_pending sample_state "r1") "r1" sample_response).2
        [sample_response] [] 0).1 =
      (resolve_pending (register_pending sample_state "r1") "r1" sample_response).2 ∧
    (handle_push (resolve_pending (register_pending sample_state "r1") "r1" sample_response).2
        [sample_response] [] 0).2 = ["r1"]) :=
  ⟨⟨rfl, rfl⟩,
   C7_resolve_at_most_once (register_pending sample_state "r1") "r1"
     sample_response sample_response rfl rfl⟩

-- ─── C1 ──────────────────────────────────────────────────────

/-- State carried by a tool-call phase. -/
def phase_state : ToolCallPhase → ServerState
  | .immediate _ st => st
  | .awaiting _ _ st => st

/-- Whether the opening phase reached the await on the reply slot. -/
def phase_is_awaiting : ToolCallPhase → Bool
  | .awaiting _ _ _ => true
  | .immediate _ _ => false

/-- `tools/call` params naming the plugin-bound tool `studio-run_script`. -/
def run_script_params : Json :=
  Json.obj [("name", Json.str "studio-run_script")]

/-- A late plugin response for request "r9". -/
def c1_late_response : BridgeToolResponse :=
  { request_id := "r9", success := true, result := some (Json.str "1"), error := none }

/-- The state after a full `tools/call` of `studio-run_script` whose
30 s deadline expired with no plugin reply. -/
def c1_after_timeout : ServerState :=
  (handle_tools_call_await
    (phase_state (handle_tools_call_start sample_state (Json.num 7) run_script_params "r9" 100))
    (Json.num 7) "studio-run_script" "r9" AwaitOutcome.deadline).2

/-- C1 counterexample: after the deadline expires the pending entry for
"r9" is still present, a late /push finds it so `resolve_pending`
returns true (not false), and the push handler logs no warning —
contrary to the claim. -/
theorem C1_counterexample :
    phase_is_awaiting
      (handle_tools_call_start sample_state (Json.num 7) run_script_params "r9" 100) = true ∧
    (pending_lookup c1_after_timeout "r9").isSome = true ∧
    (resolve_pending c1_after_timeout "r9" c1_late_response).1 = true ∧
    (handle_push c1_after_timeout [c1_late_response] [] 0).2 = [] := by
  refine ⟨by decide, by decide, by decide, by decide⟩

/-- C1 (amended): when the 30 s deadline expires the pending-table entry
for the request id is not removed — only the reply receiver is dropped.
A subsequent /push carrying that request id therefore finds the stale
slot: `resolve_pending` removes it at that point and returns true (the
delivery into the dead receiver is silently discarded), and the push
handler logs no warning.  Only then is the id gone from the table. -/
theorem C1_timeout_leaves_stale_slot (st : ServerState) (id : Json)
    (tn r : String) (resp : BridgeToolResponse) (s : PendingSlot)
    (hr : resp.request_id = r) (h : pending_lookup st r = some s) :
    (handle_tools_call_await st id tn r AwaitOutcome.deadline).2 =
      drop_reply_receiver st r ∧
    pending_lookup (drop_reply_receiver st r) r = some { receiver_alive := false } ∧
    (resolve_pending (drop_reply_receiver st r) r resp).1 = true ∧
    pending_lookup (resolve_pending (drop_reply_receiver st r) r resp).2 r = none ∧
    (handle_push (drop_reply_receiver st r) [resp] [] 0).2 = [] := by
  have hd := pending_lookup_drop h
  have hres := resolve_pending_of_some resp hd
  refine ⟨rfl, hd, by rw [hres], ?_, ?_⟩
  · rw [hres]
    exact pending_lookup_after_remove _ r
  · simp [handle_push, hr, hres]

/-- Witness for the amended C1 on a registered pending call "r1". -/
theorem C1_timeout_leaves_stale_slot_witness :
    (sample_response.request_id = "r1" ∧
      pending_lookup (register_pending sample_state "r1") "r1" =
        some { receiver_alive := true }) ∧
    ((handle_tools_call_await (register_pending sample_state "r1") (Json.num 7)
        "studio-run_script" "r1" AwaitOutcome.deadline).2 =
      drop_reply_receiver (register_pending sample_state "r1") "r1" ∧
    pending_lookup (drop_reply_receiver (register_pending sample_state "r1") "r1") "r1" =
      some { receiver_alive := false } ∧
    (resolve_pending (drop_reply_receiver (register_pending sample_state "r1") "r1") "r1"
        sample_response).1 = true ∧
    pending_lookup
      (resolve_pending (drop_reply_receiver (register_pending sample_state "r1") "r1") "r1"
        sample_response).2 "r1" = none ∧
    (handle_push (drop_reply_receiver (register_pending sample_state "r1") "r1")
        [sample_response] [] 0).2 = []) :=
  ⟨⟨rfl, rfl⟩,
   C1_timeout_leaves_stale_slot (register_pending sample_state "r1") (Json.num 7)
     "studio-run_script" "r1" sample_response { receiver_alive := true } rfl rfl⟩

-- ─── C3 ──────────────────────────────────────────────────────

/-- C3 counterexample: a /pull for "c1" (queue empty, `last_poll` 100)
that waits out the 25 s deadline and returns `[]` has nevertheless
changed the client `last_poll` to the pull time 200 — the immediate
drain attempt at the start of `handle_pull` stamps it. -/
theorem C3_counterexample :
    (handle_pull sample_state "c1" 200 PullWait.timedOut).2 = PullReply.ok [] ∧
    (lookupClient (handle_pull sample_state "c1" 200 PullWait.timedOut).1.clients "c1").map
        (fun c => c.last_poll) = some 200 ∧
    sample_client.last_poll = 100 ∧ (200 : Int) ≠ 100 := by
  exact ⟨rfl, rfl, rfl, by decide⟩

/-- C3 (amended): `drain_outbound` stamps `last_poll` whenever the
client is registered, even when it drains nothing; a /pull that times
out empty therefore still updated `last_poll` once, to the time of its
opening immediate drain attempt. -/
theorem C3_empty_timed_out_pull_stamps_last_poll (st : ServerState)
    (cid : String) (now : Int) (cs : ClientState)
    (h : lookupClient st.clients cid = some cs) (hq : cs.outbound_queue = []) :
    (handle_pull st cid now PullWait.timedOut).2 = PullReply.ok [] ∧
    lookupClient (handle_pull st cid now PullWait.timedOut).1.clients cid =
      some { cs with last_poll := now, outbound_queue := [] } := by
  have hupd := lookupClient_updateClient_self
    (fun c => { c with last_poll := now, outbound_queue := [] }) h
  have hdrain : drain_outbound st cid now =
      ({ st with clients := updateClient st.clients cid (fun c =>
           { c with last_poll := now, outbound_queue := [] }) },
       cs.outbound_queue) := by
    unfold drain_outbound
    rw [h]
  constructor
  · simp [handle_pull, hdrain, hq, get_notify, hupd]
  · simp [handle_pull, hdrain, hq, get_notify, hupd]

/-- Witness for the amended C3 at the concrete state. -/
theorem C3_empty_timed_out_pull_stamps_last_poll_witness :
    (lookupClient sample_state.clients "c1" = some sample_client ∧
      sample_client.outbound_queue = []) ∧
    ((handle_pull sample_state "c1" 200 PullWait.timedOut).2 = PullReply.ok [] ∧
    lookupClient (handle_pull sample_state "c1" 200 PullWait.timedOut).1.clients "c1" =
      some { sample_client with last_poll := 200, outbound_queue := [] }) :=
  ⟨⟨rfl, rfl⟩,
   C3_empty_timed_out_pull_stamps_last_poll sample_state "c1" 200 sample_client rfl rfl⟩

-- ─── C8 ──────────────────────────────────────────────────────

/-- C8: a `tools/call` to a plugin-bound tool (not `studio-status`, not
a disabled capture tool) with no connected client short-circuits before
registering or enqueueing anything: it immediately produces a JSON-RPC
success whose result is the MCP-level error naming the missing plugin
connection; the pending table is untouched and no client queue can have
grown (the only state effect is the pruning inside the check). -/
theorem C8_no_plugin_immediate_error (st : ServerState) (id params : Json)
    (fresh : String) (now : Int) (t : String)
    (h1 : (params.get "name").bind Json.as_str = some t)
    (h2 : (t == "studio-status") = false)
    (h3 : disabled_reason t = none)
    (h4 : (has_connected_client st now).1 = false) :
    handle_tools_call_start st id params fresh now =
      ToolCallPhase.immediate
        (JsonRpcResponse.success id (McpToolResult.error_text no_plugin_msg).to_value)
        (prune_stale_clients st now) ∧
    (JsonRpcResponse.success id (McpToolResult.error_text no_plugin_msg).to_value).error =
      none ∧
    (JsonRpcResponse.success id (McpToolResult.error_text no_plugin_msg).to_value).result =
      some (McpToolResult.error_text no_plugin_msg).to_value ∧
    (McpToolResult.error_text no_plugin_msg).is_error = true ∧
    strContains no_plugin_msg "plugin connected" = true ∧
    (prune_stale_clients st now).pending_calls = st.pending_calls ∧
    (∀ kc ∈ (prune_stale_clients st now).clients, kc ∈ st.clients) := by
  have h4' : (prune_stale_clients st now).clients.isEmpty = true := by
    unfold has_connected_client at h4
    simpa using h4
  refine ⟨?_, rfl, rfl, rfl, by decide, rfl, ?_⟩
  · simp only [handle_tools_call_start, h1, h2, h3, has_connected_client, h4',
      Bool.false_eq_true, if_false, Bool.not_true, Bool.not_false, if_true]
  · intro kc hk
    exact List.mem_of_mem_filter hk

/-- Witness for C8: `studio-run_script` with an empty registry. -/
theorem C8_no_plugin_immediate_error_witness :
    ((run_script_params.get "name").bind Json.as_str = some "studio-run_script" ∧
      ("studio-run_script" == "studio-status") = false ∧
      disabled_reason "studio-run_script" = none ∧
      (has_connected_client initial_state 100).1 = false) ∧
    (handle_tools_call_start initial_state (Json.num 3) run_script_params "u1" 100 =
      ToolCallPhase.immediate
        (JsonRpcResponse.success (Json.num 3)
          (McpToolResult.error_text no_plugin_msg).to_value)
        (prune_stale_clients initial_state 100) ∧
    (JsonRpcResponse.success (Json.num 3)
        (McpToolResult.error_text no_plugin_msg).to_value).error = none ∧
    (JsonRpcResponse.success (Json.num 3)
        (McpToolResult.error_text no_plugin_msg).to_value).result =
      some (McpToolResult.error_text no_plugin_msg).to_value ∧
    (McpToolResult.error_text no_plugin_msg).is_error = true ∧
    strContains no_plugin_msg "plugin connected" = true ∧
    (prune_stale_clients initial_state 100).pending_calls = initial_state.pending_calls ∧
    (∀ kc ∈ (prune_stale_clients initial_state 100).clients, kc ∈ initial_state.clients)) :=
  ⟨⟨rfl, rfl, rfl, rfl⟩,
   C8_no_plugin_immediate_error initial_state (Json.num 3) run_script_params "u1" 100
     "studio-run_script" rfl rfl rfl rfl⟩

-- ─── C9 ──────────────────────────────────────────────────────

/-- C9: a non-empty stdin line that fails JSON parsing makes the loop
emit a JSON-RPC error response with null id, code -32700 and message
"Parse error: " followed by the parser detail, and the loop continues
reading instead of terminating. -/
theorem C9_parse_error_response (e : String) :
    step_line (Except.error e) = StepOutcome.parseError e ∧
    outcome_response (StepOutcome.parseError e) =
      some { jsonrpc := "2.0", id := Json.null, result := none,
             error := some { code := -32700, message := "Parse error: " ++ e,
                             data := none } } ∧
    step_continues true (StepOutcome.parseError e) = true ∧
    step_continues false (StepOutcome.parseError e) = true :=
  ⟨rfl, rfl, rfl, rfl⟩

-- ─── C10 ─────────────────────────────────────────────────────

/-- C10: a message whose `id` field is a literal JSON null deserializes
with `id = none` (serde maps null into `Option::None`), so the loop
treats it as a notification: it is dispatched to `handle_notification`
(which recognizes the two notification methods and touches no state),
no response is produced for it, and the loop continues. -/
theorem C10_null_id_is_notification (j : Json) (v m : String)
    (h1 : j.get "jsonrpc" = some (Json.str v))
    (h2 : j.get "method" = some (Json.str m))
    (h3 : j.get "id" = some Json.null)
    (hm : m = "notifications/initialized" ∨ m = "notifications/cancelled") :
    ∃ msg : JsonRpcMessage,
      from_json_rpc j = Except.ok msg ∧
      msg.id = none ∧ msg.method = m ∧
      step_line (Except.ok msg) = StepOutcome.notice m ∧
      outcome_response (StepOutcome.notice m) = none ∧
      step_continues true (StepOutcome.notice m) = true ∧
      step_continues false (StepOutcome.notice m) = true ∧
      (handle_notification m = NoticeLog.initializedArm ∨
        handle_notification m = NoticeLog.cancelledArm) := by
  cases j with
  | obj fields =>
      refine ⟨{ jsonrpc := v, id := none, method := m,
                params := ((Json.obj fields).get "params").getD Json.null },
              ?_, rfl, rfl, rfl, rfl, rfl, rfl, ?_⟩
      · simp only [from_json_rpc, h1, h2, h3]
      · rcases hm with h | h <;> subst h
        · exact Or.inl rfl
        · exact Or.inr rfl
  | null => simp [Json.get] at h1
  | bool b => simp [Json.get] at h1
  | num n => simp [Json.get] at h1
  | str s => simp [Json.get] at h1
  | arr elems => simp [Json.get] at h1

/-- Witness for C10 on a concrete null-id notification message. -/
theorem C10_null_id_is_notification_witness :
    ((Json.obj [("jsonrpc", Json.str "2.0"), ("id", Json.null),
        ("method", Json.str "notifications/initialized"),
        ("params", Json.obj [])]).get "jsonrpc" = some (Json.str "2.0") ∧
      (Json.obj [("jsonrpc", Json.str "2.0"), ("id", Json.null),
        ("method", Json.str "notifications/initialized"),
        ("params", Json.obj [])]).get "method" =
        some (Json.str "notifications/initialized") ∧
      (Json.obj [("jsonrpc", Json.str "2.0"), ("id", Json.null),
        ("method", Json.str "notifications/initialized"),
        ("params", Json.obj [])]).get "id" = some Json.null) ∧
    (∃ msg : JsonRpcMessage,
      from_json_rpc (Json.obj [("jsonrpc", Json.str "2.0"), ("id", Json.null),
        ("method", Json.str "notifications/initialized"),
        ("params", Json.obj [])]) = Except.ok msg ∧
      msg.id = none ∧ msg.method = "notifications/initialized" ∧
      step_line (Except.ok msg) = StepOutcome.notice "notifications/initialized" ∧
      outcome_response (StepOutcome.notice "notifications/initialized") = none ∧
      step_continues true (StepOutcome.notice "notifications/initialized") = true ∧
      step_continues false (StepOutcome.notice "notifications/initialized") = true ∧
      (handle_notification "notifications/initialized" = NoticeLog.initializedArm ∨
        handle_notification "notifications/initialized" = NoticeLog.cancelledArm)) :=
  ⟨⟨rfl, rfl, rfl⟩,
   C10_null_id_is_notification
     (Json.obj [("jsonrpc", Json.str "2.0"), ("id", Json.null),
        ("method", Json.str "notifications/initialized"), ("params", Json.obj [])])
     "2.0" "notifications/initialized" rfl rfl rfl (Or.inl rfl)⟩
